import Mathlib

/-!
# Privileged-resource installer of colima (`environment/vm/lima/network/installer.go`)

A shallow embedding of the Go file.  Go strings are `String`, argument vectors
are `List String`, `error` values are `Option GoError` (`none` is `nil`), and a
Go pair `(v, err)` is an `Except GoError _`, except for `exec.LookPath`, whose
string result the code reads while discarding its error.

The collaborators the file calls but does not define (the embedded resource
provider, the `HostActions` executor, `os.Stat`, `os.CreateTemp`, the file
handle, `runtime.GOARCH`, `os.Args[0]`, `exec.LookPath`) are fields of `Env`.
Everything stateful acts on an abstract system state `σ`; `World` adds two
recorders to it: the commands handed to the executor and the resource names
asked of the provider.
-/

namespace Network

/-! ## Go errors -/

/-- Go `error` values: a plain error, or the value built by `fmt.Errorf` with a
`%w` verb, which keeps the formatted message and the wrapped error. -/
inductive GoError where
  | errorString (msg : String)
  | wrapError (msg : String) (err : GoError)
  deriving DecidableEq, Repr

/-- The method `Error()`. -/
def GoError.Error : GoError → String
  | .errorString msg => msg
  | .wrapError msg _ => msg

/-- The method `Unwrap()`, as `errors.Unwrap` sees it. -/
def GoError.Unwrap : GoError → Option GoError
  | .errorString _ => none
  | .wrapError _ err => some err

/-- `fmt.Errorf(pre + "%w", err)`: every format string of the file is a fixed
text followed by `%w`. -/
def Errorf (pre : String) (err : GoError) : GoError :=
  .wrapError (pre ++ err.Error) err

/-! ## `filepath.Dir` on a slash-separated host -/

/-- The elements of a path between its slashes, empty ones included. -/
def splitSlash : List Char → List (List Char)
  | [] => [[]]
  | c :: cs =>
    if c = '/' then [] :: splitSlash cs
    else
      match splitSlash cs with
      | [] => [[c]]
      | x :: xs => (c :: x) :: xs

/-- One element of `filepath.Clean`: the stack holds the kept elements, last
one first. Empty and `.` elements vanish, `..` removes the element before it,
is dropped at the root, and is kept at the start of a relative path. -/
def cleanStep (rooted : Bool) (stack : List (List Char)) (comp : List Char) :
    List (List Char) :=
  if comp = [] ∨ comp = ['.'] then stack
  else if comp = ['.', '.'] then
    match stack with
    | [] => if rooted then [] else [comp]
    | top :: rest => if top = ['.', '.'] then comp :: stack else rest
  else comp :: stack

/-- Elements joined by single slashes. -/
def joinSlash : List (List Char) → List Char
  | [] => []
  | [x] => x
  | x :: xs => x ++ '/' :: joinSlash xs

/-- Go `filepath.Clean` for a slash-separated path. -/
def Clean (path : List Char) : List Char :=
  let rooted := path.head? = some '/'
  let body := joinSlash ((splitSlash path).foldl (cleanStep rooted) []).reverse
  let out := if rooted then '/' :: body else body
  if out = [] then ['.'] else out

/-- The path up to and including its last slash. -/
def uptoLastSlash (path : List Char) : List Char :=
  (path.reverse.dropWhile (fun c => c ≠ '/')).reverse

/-- Go `filepath.Dir` (no volume name): all but the last element, cleaned. -/
def Dir (path : String) : String :=
  String.mk (Clean (uptoLastSlash path.data))

/-! ## The three artifacts -/

/-- The implementations of the interface `rootfulFile`. -/
inductive rootfulFile where
  | sudoerFile
  | vmnetFile
  | colimaVmnetFile
  deriving DecidableEq, Repr

/-- The constant `VmnetBinary`. -/
def VmnetBinary : String := "/opt/colima/bin/vde_vmnet"

/-- The method `Path()` of each implementation. -/
def rootfulFile.Path : rootfulFile → String
  | .sudoerFile => "/etc/sudoers.d/colima"
  | .vmnetFile => VmnetBinary
  | .colimaVmnetFile => "/opt/colima/bin/colima-vmnet"

/-- The method `Executable()` of each implementation. -/
def rootfulFile.Executable : rootfulFile → Bool
  | .sudoerFile => false
  | .vmnetFile => true
  | .colimaVmnetFile => true

/-! ## The environment -/

/-- What `os.Stat` returns on success; only `Mode()` is read. The mode is a
32-bit value: permission bits in the low nine bits, type bits above. -/
structure FileInfo where
  Mode : Nat
  deriving DecidableEq, Repr

/-- The handle returned by `os.CreateTemp`; only `Name()` is read. -/
structure File where
  Name : String
  deriving DecidableEq, Repr

/-- The collaborators of the file, over a system state `σ`. -/
structure Env (σ : Type) where
  /-- The function `os.Stat`. -/
  Stat : σ → String → Except GoError FileInfo
  /-- The function `embedded.ReadString`. -/
  ReadString : String → Except GoError String
  /-- The function `embedded.Read`. -/
  Read : String → Except GoError (List UInt8)
  /-- The constant `runtime.GOARCH`. -/
  GOARCH : String
  /-- The function `os.CreateTemp`. -/
  CreateTemp : σ → String → String → Except GoError File × σ
  /-- The method `Write` of the temporary file (the byte count is unused). -/
  Write : σ → File → List UInt8 → Option GoError × σ
  /-- The method `Close` of the temporary file. -/
  Close : σ → File → Option GoError × σ
  /-- The value `os.Args[0]`. -/
  Args0 : String
  /-- The function `exec.LookPath`: it returns a path and an error. -/
  LookPath : σ → String → String × Option GoError
  /-- The method `host.RunInteractive`, given the argument vector. -/
  RunInteractive : σ → List String → Option GoError × σ

/-- One command received by the executor, and what the executor answered. -/
structure Call where
  argv : List String
  result : Option GoError
  deriving DecidableEq, Repr

/-- The system state with the two recorders. -/
structure World (σ : Type) where
  sys : σ
  calls : List Call
  requests : List String

/-- A world whose recorders are empty. -/
def World.fresh {σ : Type} (s : σ) : World σ := ⟨s, [], []⟩

/-- The executor call `host.RunInteractive(argv...)`, recorded. -/
def runInteractive {σ : Type} (env : Env σ) (w : World σ) (argv : List String) :
    Option GoError × World σ :=
  let r := env.RunInteractive w.sys argv
  (r.1, ⟨r.2, w.calls ++ [⟨argv, r.1⟩], w.requests⟩)

/-- The provider call `embedded.ReadString(name)`, recorded. -/
def readString {σ : Type} (env : Env σ) (w : World σ) (name : String) :
    Except GoError String × World σ :=
  (env.ReadString name, ⟨w.sys, w.calls, w.requests ++ [name]⟩)

/-- The provider call `embedded.Read(name)`, recorded. -/
def read {σ : Type} (env : Env σ) (w : World σ) (name : String) :
    Except GoError (List UInt8) × World σ :=
  (env.Read name, ⟨w.sys, w.calls, w.requests ++ [name]⟩)

/-! ## `rootfulInstaller.Installed` -/

/-- The method `rootfulInstaller.Installed`. The mask `0100` of the source is
octal. -/
def Installed {σ : Type} (env : Env σ) (s : σ) (file : rootfulFile) : Bool :=
  match env.Stat s file.Path with
  | .error _ => false
  | .ok stat =>
    if file.Executable then
      decide (stat.Mode &&& 0o100 ≠ 0)
    else
      true

/-! ## The three `Install` methods -/

/-- The method `sudoerFile.Install`. The format of the write command is
`echo "%s" > %s`. -/
def sudoerFile.Install {σ : Type} (env : Env σ) (w : World σ) :
    Option GoError × World σ :=
  let s := rootfulFile.sudoerFile
  -- read embedded file contents
  match readString env w "network/sudo.txt" with
  | (.error err, w1) => (some (Errorf "error retrieving embedded sudo file: " err), w1)
  | (.ok txt, w1) =>
    -- ensure parent directory exists
    match runInteractive env w1 ["sudo", "mkdir", "-p", Dir s.Path] with
    | (some err, w2) => (some (Errorf "error preparing sudoers directory: " err), w2)
    | (none, w2) =>
      -- persist file to desired location
      match runInteractive env w2
          ["sudo", "sh", "-c", "echo \"" ++ txt ++ "\" > " ++ s.Path] with
      | (some err, w3) => (some (Errorf "error writing sudoers file: " err), w3)
      | (none, w3) => (none, w3)

/-- The archive suffix chosen at the top of `vmnetFile.Install`. -/
def vmnetArch (goarch : String) : String :=
  if goarch ≠ "amd64" then "arm64" else "x86_64"

/-- The method `vmnetFile.Install`. The format of the extraction command is
`cd %s && tar xfz %s`. -/
def vmnetFile.Install {σ : Type} (env : Env σ) (w : World σ) :
    Option GoError × World σ :=
  let s := rootfulFile.vmnetFile
  let arch := vmnetArch env.GOARCH
  -- read the embedded file
  match read env w ("network/vmnet_" ++ arch ++ ".tar.gz") with
  | (.error err, w1) => (some (Errorf "error retrieving embedded vmnet file: " err), w1)
  | (.ok gz, w1) =>
    -- write tar to tmp directory
    match env.CreateTemp w1.sys "" "vmnet.tar.gz" with
    | (.error err, s2) =>
      (some (Errorf "error creating temp file: " err), ⟨s2, w1.calls, w1.requests⟩)
    | (.ok f, s2) =>
      match env.Write s2 f gz with
      | (some err, s3) =>
        (some (Errorf "error writing temp file: " err), ⟨s3, w1.calls, w1.requests⟩)
      | (none, s3) =>
        -- the result of Close is dropped: not a fatal error
        let s4 := (env.Close s3 f).2
        -- extract tar to desired location
        let dir := Dir s.Path
        match runInteractive env ⟨s4, w1.calls, w1.requests⟩ ["sudo", "mkdir", "-p", dir] with
        | (some err, w5) => (some (Errorf "error preparing colima privileged dir: " err), w5)
        | (none, w5) =>
          match runInteractive env w5
              ["sudo", "sh", "-c", "cd " ++ dir ++ " && tar xfz " ++ f.Name] with
          | (some err, w6) => (some (Errorf "error extracting vmnet archive: " err), w6)
          | (none, w6) => (none, w6)

/-- The method `colimaVmnetFile.Install`. -/
def colimaVmnetFile.Install {σ : Type} (env : Env σ) (w : World σ) :
    Option GoError × World σ :=
  let s := rootfulFile.colimaVmnetFile
  let arg0 := (env.LookPath w.sys env.Args0).1
  let arg0 := if arg0 = "" then env.Args0 else arg0
  match runInteractive env w ["sudo", "ln", "-sfn", arg0, s.Path] with
  | (some err, w1) => (some (Errorf "error creating colima-vmnet binary: " err), w1)
  | (none, w1) => (none, w1)

/-- The method `rootfulInstaller.Install`: the interface call `file.Install(r.host)`. -/
def Install {σ : Type} (env : Env σ) (file : rootfulFile) (w : World σ) :
    Option GoError × World σ :=
  match file with
  | .sudoerFile => sudoerFile.Install env w
  | .vmnetFile => vmnetFile.Install env w
  | .colimaVmnetFile => colimaVmnetFile.Install env w

/-- The commands the executor received between two worlds. -/
def issued {σ : Type} (w w1 : World σ) : List Call :=
  w1.calls.drop w.calls.length

/-- The resource names asked of the provider between two worlds. -/
def requested {σ : Type} (w w1 : World σ) : List String :=
  w1.requests.drop w.requests.length

/-! ## Definitions used to state the properties -/

/-- The archive name that `vmnetFile.Install` asks for, as a function of
`runtime.GOARCH`. -/
def vmnetArchive (goarch : String) : String :=
  if goarch = "amd64" then "network/vmnet_x86_64.tar.gz" else "network/vmnet_arm64.tar.gz"

/-- The system state in which `vmnetFile.Install` reaches its first command:
after `CreateTemp`, `Write` and `Close`. -/
def vmnetStaged {σ : Type} (env : Env σ) (s : σ) (f : File) (gz : List UInt8) : σ :=
  (env.Close (env.Write (env.CreateTemp s "" "vmnet.tar.gz").2 f gz).2 f).2

/-- The number of privileged commands in the sequence of each artifact. -/
def stepCount : rootfulFile → Nat
  | .sudoerFile => 2
  | .vmnetFile => 2
  | .colimaVmnetFile => 1

/-- The text that the error of step `k` of each artifact starts with. -/
def stepMessage : rootfulFile → Nat → String
  | .sudoerFile, 0 => "error preparing sudoers directory: "
  | .sudoerFile, _ => "error writing sudoers file: "
  | .vmnetFile, 0 => "error preparing colima privileged dir: "
  | .vmnetFile, _ => "error extracting vmnet archive: "
  | .colimaVmnetFile, _ => "error creating colima-vmnet binary: "

/-- The shape of the command sequence of each artifact: the commands as a
template in the three values the environment supplies, the sudoers text, the
link target and the name of the temporary file. -/
def installCommands (file : rootfulFile) (txt target tmp : String) : List (List String) :=
  match file with
  | .sudoerFile =>
    [["sudo", "mkdir", "-p", "/etc/sudoers.d"],
     ["sudo", "sh", "-c", "echo \"" ++ txt ++ "\" > /etc/sudoers.d/colima"]]
  | .vmnetFile =>
    [["sudo", "mkdir", "-p", "/opt/colima/bin"],
     ["sudo", "sh", "-c", "cd /opt/colima/bin && tar xfz " ++ tmp]]
  | .colimaVmnetFile =>
    [["sudo", "ln", "-sfn", target, "/opt/colima/bin/colima-vmnet"]]

/-- The answers of the executor to a list of commands handed to it one after
the other, starting in state `s`. -/
def answers {σ : Type} (env : Env σ) : σ → List (List String) → List (Option GoError)
  | _, [] => []
  | s, c :: cs => (env.RunInteractive s c).1 :: answers env (env.RunInteractive s c).2 cs

/-- What the environment does before the first command of an artifact: the
state in which that command is handed to the executor and the values placed in
the commands (the sudoers text, the link target, the name of the temporary
file); `none` when a resource read or the staging of the archive fails. -/
def beforeCommands {σ : Type} (env : Env σ) (file : rootfulFile) (s : σ) :
    Option (σ × String × String × String) :=
  match file with
  | .sudoerFile =>
    match env.ReadString "network/sudo.txt" with
    | .error _ => none
    | .ok txt => some (s, txt, "", "")
  | .vmnetFile =>
    match env.Read (vmnetArchive env.GOARCH) with
    | .error _ => none
    | .ok gz =>
      match (env.CreateTemp s "" "vmnet.tar.gz").1 with
      | .error _ => none
      | .ok f =>
        match (env.Write (env.CreateTemp s "" "vmnet.tar.gz").2 f gz).1 with
        | some _ => none
        | none => some (vmnetStaged env s f gz, "", "", f.Name)
  | .colimaVmnetFile =>
    some (s, "",
      if (env.LookPath s env.Args0).1 = "" then env.Args0 else (env.LookPath s env.Args0).1, "")

/-! ## The shell on the write command

`sudoerFile.Install` hands the text `echo "<txt>" > <path>` to `sh -c`. What
ends up in the file is decided by the shell, which is not part of the
repository; the model below covers the fragment of the POSIX shell language
that the command stays in when the text has no character that is special
inside double quotes. -/

/-- The characters that keep a special meaning inside double quotes: the double
quote (34), the dollar sign (36), the backquote (96) and the backslash (92). -/
def dquoteSpecial (c : Char) : Bool :=
  c = Char.ofNat 34 ∨ c = Char.ofNat 36 ∨ c = Char.ofNat 96 ∨ c = Char.ofNat 92

/-- A text that the shell takes literally between double quotes and that `echo`
prints as it is: no special character, and no leading dash (which `echo` may
read as an option). -/
def plainWord (t : List Char) : Bool :=
  t.all (fun c => !dquoteSpecial c) && t.head? != some '-'

/-- The characters of an unquoted word that is a plain path. -/
def pathChar (c : Char) : Bool :=
  c.isAlphanum || c = '/' || c = '.' || c = '_' || c = '-'

/-- The rest of `s` after the leading text `p`, when `s` starts with `p`. -/
def dropLeading : List Char → List Char → Option (List Char)
  | [], s => some s
  | _ :: _, [] => none
  | p :: ps, c :: cs => if p = c then dropLeading ps cs else none

/-- The POSIX shell on a script of the form `echo "WORD" > PATH` with a plain
`WORD` and a plain `PATH`: `echo` prints its argument followed by a newline,
and the redirection stores that output in `PATH`, replacing what was there. The
result is the path and the content stored; `none` outside this fragment. -/
def shEchoTo (script : String) : Option (String × String) :=
  match dropLeading "echo \"".data script.data with
  | none => none
  | some rest =>
    let word := rest.takeWhile (fun c => !dquoteSpecial c)
    match dropLeading "\" > ".data (rest.dropWhile (fun c => !dquoteSpecial c)) with
    | none => none
    | some path =>
      if plainWord word ∧ path ≠ [] ∧ path.all pathChar = true then
        some (String.mk path, String.mk (word ++ [Char.ofNat 10]))
      else none

/-! ## Sample environments -/

/-- The provider error for an unknown resource name. -/
def notFound : GoError := .errorString "file does not exist"

/-- A sample environment over a counter of the temporary files created so far:
`stat` answers `os.Stat`, `txt` is the sudoers resource, `gz` the content of
both archives, `look` the path found by `exec.LookPath`, and `answer` the
executor. Temporary files are named after the counter. -/
def sampleEnv (stat : String → Except GoError FileInfo) (txt : Except GoError String)
    (gz : Except GoError (List UInt8)) (goarch look : String)
    (answer : List String → Option GoError) : Env Nat :=
  ⟨fun _ path => stat path,
   fun name => if name = "network/sudo.txt" then txt else .error notFound,
   fun name =>
     if name = "network/vmnet_x86_64.tar.gz" ∨ name = "network/vmnet_arm64.tar.gz" then gz
     else .error notFound,
   goarch,
   fun n _ pattern => (.ok ⟨"/tmp/" ++ pattern ++ String.mk (List.replicate (n + 1) '7')⟩, n + 1),
   fun n _ _ => (none, n),
   fun n _ => (none, n),
   "colima",
   fun _ _ => (look, none),
   fun n argv => (answer argv, n)⟩

/-- A file system in which every path is a file of mode `m`. -/
def statMode (m : Nat) : String → Except GoError FileInfo :=
  fun _ => .ok ⟨m⟩

/-- A file system in which no path exists. -/
def statMissing : String → Except GoError FileInfo :=
  fun _ => .error (.errorString "no such file or directory")

/-- An executor that always succeeds. -/
def answerOk : List String → Option GoError :=
  fun _ => none

/-- An executor that fails on every `sudo sh` command and succeeds otherwise. -/
def answerNoShell : List String → Option GoError :=
  fun argv => if argv.take 2 = ["sudo", "sh"] then some (.errorString "exit status 1") else none

/-- An executor that fails on every command. -/
def answerFail : List String → Option GoError :=
  fun _ => some (.errorString "exit status 1")

/-- A sample environment whose executor refuses `sudo sh`. -/
def noShellEnv : Env Nat :=
  sampleEnv statMissing (.ok "ok") (.ok []) "amd64" "" answerNoShell

/-- A sample environment whose executor refuses everything. -/
def failEnv : Env Nat :=
  sampleEnv statMissing (.ok "ok") (.ok []) "amd64" "" answerFail

/-! ## Theorems -/

/-- Bit 6 is the only bit of the mask `0100` (octal). -/
theorem land_ownerExec_ne_zero (m : Nat) : m &&& 0o100 ≠ 0 ↔ m.testBit 6 = true := by
  constructor
  · intro h
    by_contra hb
    apply h
    apply Nat.eq_of_testBit_eq
    intro i
    have h64 : (0o100 : Nat) = 2 ^ 6 := by norm_num
    rw [Nat.testBit_and, h64, Nat.testBit_two_pow, Nat.zero_testBit]
    by_cases hi : 6 = i
    · subst hi
      simp [hb]
    · simp [hi]
  · intro hb h
    have h1 : (m &&& 0o100).testBit 6 = true := by
      have h64 : (0o100 : Nat) = 2 ^ 6 := by norm_num
      rw [Nat.testBit_and, hb, h64, Nat.testBit_two_pow_self]
      rfl
    rw [h, Nat.zero_testBit] at h1
    exact Bool.noConfusion h1

/-- C1 (as amended): for an artifact whose `Executable()` is true and a stat
that succeeds with mode `m`, `Installed` returns true exactly when the owner
execute bit (octal `0100`, bit 6) is set in `m`; the group and other execute
bits are not read. -/
theorem installed_executable_iff_owner_bit {σ : Type} (env : Env σ) (s : σ)
    (file : rootfulFile) (info : FileInfo)
    (hexe : file.Executable = true) (hstat : env.Stat s file.Path = .ok info) :
    (Installed env s file = true ↔ info.Mode &&& 0o100 ≠ 0) ∧
    (Installed env s file = true ↔ info.Mode.testBit 6 = true) := by
  have h1 : Installed env s file = true ↔ info.Mode &&& 0o100 ≠ 0 := by
    simp [Installed, hstat, hexe]
  exact ⟨h1, h1.trans (land_ownerExec_ne_zero info.Mode)⟩

/-- Witness of C1 (as amended): `vmnetFile` at mode `0755`. -/
theorem installed_executable_iff_owner_bit_witness :
    rootfulFile.vmnetFile.Executable = true ∧
    (sampleEnv (statMode 0o755) (.ok "") (.ok []) "amd64" "" answerOk).Stat 0
      rootfulFile.vmnetFile.Path = .ok ⟨0o755⟩ ∧
    ((Installed (sampleEnv (statMode 0o755) (.ok "") (.ok []) "amd64" "" answerOk) 0
        rootfulFile.vmnetFile = true ↔ 0o755 &&& 0o100 ≠ 0) ∧
     (Installed (sampleEnv (statMode 0o755) (.ok "") (.ok []) "amd64" "" answerOk) 0
        rootfulFile.vmnetFile = true ↔ (0o755 : Nat).testBit 6 = true)) :=
  ⟨rfl, rfl,
   installed_executable_iff_owner_bit
     (sampleEnv (statMode 0o755) (.ok "") (.ok []) "amd64" "" answerOk) 0
     rootfulFile.vmnetFile ⟨0o755⟩ rfl rfl⟩

/-- Counterexample to C1 as stated: for both executable artifacts, a file whose
mode has only the group execute bit (`0010`) or only the other execute bit
(`0001`) set is reported as not installed. -/
theorem installed_false_on_group_or_other_exec_only :
    rootfulFile.vmnetFile.Executable = true ∧
    rootfulFile.colimaVmnetFile.Executable = true ∧
    (0o010 &&& 0o010 ≠ 0) ∧ (0o001 &&& 0o001 ≠ 0) ∧
    Installed (sampleEnv (statMode 0o010) (.ok "") (.ok []) "amd64" "" answerOk) 0
      rootfulFile.vmnetFile = false ∧
    Installed (sampleEnv (statMode 0o001) (.ok "") (.ok []) "amd64" "" answerOk) 0
      rootfulFile.vmnetFile = false ∧
    Installed (sampleEnv (statMode 0o010) (.ok "") (.ok []) "amd64" "" answerOk) 0
      rootfulFile.colimaVmnetFile = false ∧
    Installed (sampleEnv (statMode 0o001) (.ok "") (.ok []) "amd64" "" answerOk) 0
      rootfulFile.colimaVmnetFile = false := by
  refine ⟨rfl, rfl, by decide, by decide, ?_, ?_, ?_, ?_⟩ <;> decide

/-- C2: for each of the three artifacts, when the stat of its path is an error
(whatever the error), `Installed` returns false. `Installed` is a total
function into `Bool`: it has no error result. -/
theorem installed_false_on_stat_error {σ : Type} (env : Env σ) (s : σ)
    (file : rootfulFile) (err : GoError) (hstat : env.Stat s file.Path = .error err) :
    Installed env s file = false := by
  simp [Installed, hstat]

/-- Witness of C2: the sudoers file on a file system where no path exists. -/
theorem installed_false_on_stat_error_witness :
    (sampleEnv statMissing (.ok "") (.ok []) "amd64" "" answerOk).Stat 0
      rootfulFile.sudoerFile.Path = .error (.errorString "no such file or directory") ∧
    Installed (sampleEnv statMissing (.ok "") (.ok []) "amd64" "" answerOk) 0
      rootfulFile.sudoerFile = false :=
  ⟨rfl,
   installed_false_on_stat_error (sampleEnv statMissing (.ok "") (.ok []) "amd64" "" answerOk) 0
     rootfulFile.sudoerFile (.errorString "no such file or directory") rfl⟩

/-- C3: for `sudoerFile`, whenever the stat of its path succeeds, `Installed`
returns true, whatever the mode. -/
theorem installed_sudoer_true_on_stat_ok {σ : Type} (env : Env σ) (s : σ) (info : FileInfo)
    (hstat : env.Stat s rootfulFile.sudoerFile.Path = .ok info) :
    Installed env s rootfulFile.sudoerFile = true := by
  simp [Installed, hstat, rootfulFile.Executable]

/-- Witness of C3: a sudoers file with no permission bit at all. -/
theorem installed_sudoer_true_on_stat_ok_witness :
    (sampleEnv (statMode 0) (.ok "") (.ok []) "amd64" "" answerOk).Stat 0
      rootfulFile.sudoerFile.Path = .ok ⟨0⟩ ∧
    Installed (sampleEnv (statMode 0) (.ok "") (.ok []) "amd64" "" answerOk) 0
      rootfulFile.sudoerFile = true :=
  ⟨rfl,
   installed_sudoer_true_on_stat_ok (sampleEnv (statMode 0) (.ok "") (.ok []) "amd64" "" answerOk) 0
     ⟨0⟩ rfl⟩

/-- C9: the three paths are pairwise distinct constants; the sudoers path is
absolute, lies in the drop-in directory `/etc/sudoers.d` and is not executable;
the two other paths are absolute, differ, share the parent `/opt/colima/bin`
and are executable. -/
theorem paths_distinct_and_flags :
    rootfulFile.sudoerFile.Path ≠ rootfulFile.vmnetFile.Path ∧
    rootfulFile.sudoerFile.Path ≠ rootfulFile.colimaVmnetFile.Path ∧
    rootfulFile.vmnetFile.Path ≠ rootfulFile.colimaVmnetFile.Path ∧
    (∀ file : rootfulFile, file.Path.data.head? = some '/') ∧
    Dir rootfulFile.sudoerFile.Path = "/etc/sudoers.d" ∧
    rootfulFile.sudoerFile.Executable = false ∧
    Dir rootfulFile.vmnetFile.Path = "/opt/colima/bin" ∧
    Dir rootfulFile.colimaVmnetFile.Path = "/opt/colima/bin" ∧
    rootfulFile.vmnetFile.Executable = true ∧
    rootfulFile.colimaVmnetFile.Executable = true := by
  refine ⟨by decide, by decide, by decide, ?_, by decide, rfl, by decide, by decide, rfl, rfl⟩
  intro file
  cases file <;> rfl

/-! ### The outcome of each `Install`, case by case -/

theorem dir_sudoers : Dir "/etc/sudoers.d/colima" = "/etc/sudoers.d" := by decide

theorem dir_vmnet : Dir VmnetBinary = "/opt/colima/bin" := by decide

theorem sudoer_script (txt : String) :
    "echo \"" ++ txt ++ "\" > " ++ "/etc/sudoers.d/colima" =
      "echo \"" ++ txt ++ "\" > /etc/sudoers.d/colima" := by
  rw [String.append_assoc ("echo \"" ++ txt)]
  rfl

theorem vmnet_script (name : String) :
    "cd " ++ "/opt/colima/bin" ++ " && tar xfz " ++ name =
      "cd /opt/colima/bin && tar xfz " ++ name := by
  rfl

theorem vmnet_archive (goarch : String) :
    "network/vmnet_" ++ vmnetArch goarch ++ ".tar.gz" =
      if goarch = "amd64" then "network/vmnet_x86_64.tar.gz" else "network/vmnet_arm64.tar.gz" := by
  unfold vmnetArch
  by_cases h : goarch = "amd64"
  · simp only [h, ne_eq, not_true_eq_false, if_false, if_true]
    rfl
  · simp only [h, ne_eq, not_false_eq_true, if_false, if_true]
    rfl

theorem sudoer_read_error {σ : Type} (env : Env σ) (w : World σ) (err : GoError)
    (hread : env.ReadString "network/sudo.txt" = .error err) :
    sudoerFile.Install env w =
      (some (Errorf "error retrieving embedded sudo file: " err),
       ⟨w.sys, w.calls, w.requests ++ ["network/sudo.txt"]⟩) := by
  simp [sudoerFile.Install, readString, hread]

theorem sudoer_mkdir_error {σ : Type} (env : Env σ) (w : World σ) (txt : String) (e : GoError)
    (hread : env.ReadString "network/sudo.txt" = .ok txt)
    (h1 : (env.RunInteractive w.sys ["sudo", "mkdir", "-p", "/etc/sudoers.d"]).1 = some e) :
    sudoerFile.Install env w =
      (some (Errorf "error preparing sudoers directory: " e),
       ⟨(env.RunInteractive w.sys ["sudo", "mkdir", "-p", "/etc/sudoers.d"]).2,
        w.calls ++ [⟨["sudo", "mkdir", "-p", "/etc/sudoers.d"], some e⟩],
        w.requests ++ ["network/sudo.txt"]⟩) := by
  simp [sudoerFile.Install, readString, runInteractive, hread, rootfulFile.Path, dir_sudoers, h1]

theorem sudoer_write_error {σ : Type} (env : Env σ) (w : World σ) (txt : String) (e : GoError)
    (hread : env.ReadString "network/sudo.txt" = .ok txt)
    (h1 : (env.RunInteractive w.sys ["sudo", "mkdir", "-p", "/etc/sudoers.d"]).1 = none)
    (h2 : (env.RunInteractive (env.RunInteractive w.sys ["sudo", "mkdir", "-p", "/etc/sudoers.d"]).2
      ["sudo", "sh", "-c", "echo \"" ++ txt ++ "\" > /etc/sudoers.d/colima"]).1 = some e) :
    sudoerFile.Install env w =
      (some (Errorf "error writing sudoers file: " e),
       ⟨(env.RunInteractive (env.RunInteractive w.sys ["sudo", "mkdir", "-p", "/etc/sudoers.d"]).2
          ["sudo", "sh", "-c", "echo \"" ++ txt ++ "\" > /etc/sudoers.d/colima"]).2,
        w.calls ++ [⟨["sudo", "mkdir", "-p", "/etc/sudoers.d"], none⟩,
          ⟨["sudo", "sh", "-c", "echo \"" ++ txt ++ "\" > /etc/sudoers.d/colima"], some e⟩],
        w.requests ++ ["network/sudo.txt"]⟩) := by
  simp [sudoerFile.Install, readString, runInteractive, hread, rootfulFile.Path, dir_sudoers,
    sudoer_script, h1, h2]

theorem sudoer_success {σ : Type} (env : Env σ) (w : World σ) (txt : String)
    (hread : env.ReadString "network/sudo.txt" = .ok txt)
    (h1 : (env.RunInteractive w.sys ["sudo", "mkdir", "-p", "/etc/sudoers.d"]).1 = none)
    (h2 : (env.RunInteractive (env.RunInteractive w.sys ["sudo", "mkdir", "-p", "/etc/sudoers.d"]).2
      ["sudo", "sh", "-c", "echo \"" ++ txt ++ "\" > /etc/sudoers.d/colima"]).1 = none) :
    sudoerFile.Install env w =
      (none,
       ⟨(env.RunInteractive (env.RunInteractive w.sys ["sudo", "mkdir", "-p", "/etc/sudoers.d"]).2
          ["sudo", "sh", "-c", "echo \"" ++ txt ++ "\" > /etc/sudoers.d/colima"]).2,
        w.calls ++ [⟨["sudo", "mkdir", "-p", "/etc/sudoers.d"], none⟩,
          ⟨["sudo", "sh", "-c", "echo \"" ++ txt ++ "\" > /etc/sudoers.d/colima"], none⟩],
        w.requests ++ ["network/sudo.txt"]⟩) := by
  simp [sudoerFile.Install, readString, runInteractive, hread, rootfulFile.Path, dir_sudoers,
    sudoer_script, h1, h2]

theorem vmnet_read_error {σ : Type} (env : Env σ) (w : World σ) (err : GoError)
    (hread : env.Read (vmnetArchive env.GOARCH) = .error err) :
    vmnetFile.Install env w =
      (some (Errorf "error retrieving embedded vmnet file: " err),
       ⟨w.sys, w.calls, w.requests ++ [vmnetArchive env.GOARCH]⟩) := by
  unfold vmnetArchive at hread ⊢
  simp [vmnetFile.Install, read, vmnet_archive, hread]

theorem vmnet_temp_error {σ : Type} (env : Env σ) (w : World σ) (gz : List UInt8)
    (err : GoError)
    (hread : env.Read (vmnetArchive env.GOARCH) = .ok gz)
    (htmp : (env.CreateTemp w.sys "" "vmnet.tar.gz").1 = .error err) :
    vmnetFile.Install env w =
      (some (Errorf "error creating temp file: " err),
       ⟨(env.CreateTemp w.sys "" "vmnet.tar.gz").2, w.calls,
        w.requests ++ [vmnetArchive env.GOARCH]⟩) := by
  unfold vmnetArchive at hread ⊢
  rcases hc : env.CreateTemp w.sys "" "vmnet.tar.gz" with ⟨r, s2⟩
  rw [hc] at htmp
  simp only at htmp
  subst htmp
  simp [vmnetFile.Install, read, vmnet_archive, hread, hc]

theorem vmnet_write_error {σ : Type} (env : Env σ) (w : World σ) (gz : List UInt8)
    (f : File) (err : GoError)
    (hread : env.Read (vmnetArchive env.GOARCH) = .ok gz)
    (htmp : (env.CreateTemp w.sys "" "vmnet.tar.gz").1 = .ok f)
    (hwrite : (env.Write (env.CreateTemp w.sys "" "vmnet.tar.gz").2 f gz).1 = some err) :
    vmnetFile.Install env w =
      (some (Errorf "error writing temp file: " err),
       ⟨(env.Write (env.CreateTemp w.sys "" "vmnet.tar.gz").2 f gz).2, w.calls,
        w.requests ++ [vmnetArchive env.GOARCH]⟩) := by
  unfold vmnetArchive at hread ⊢
  rcases hc : env.CreateTemp w.sys "" "vmnet.tar.gz" with ⟨r, s2⟩
  rw [hc] at htmp hwrite
  simp only at htmp hwrite
  subst htmp
  rcases hw : env.Write s2 f gz with ⟨r3, s3⟩
  rw [hw] at hwrite
  simp only at hwrite
  subst hwrite
  simp [vmnetFile.Install, read, vmnet_archive, hread, hc, hw]

theorem vmnet_commands {σ : Type} (env : Env σ) (w : World σ) (gz : List UInt8) (f : File)
    (hread : env.Read (vmnetArchive env.GOARCH) = .ok gz)
    (htmp : (env.CreateTemp w.sys "" "vmnet.tar.gz").1 = .ok f)
    (hwrite : (env.Write (env.CreateTemp w.sys "" "vmnet.tar.gz").2 f gz).1 = none) :
    vmnetFile.Install env w =
      match env.RunInteractive (vmnetStaged env w.sys f gz)
          ["sudo", "mkdir", "-p", "/opt/colima/bin"] with
      | (some e, s5) =>
        (some (Errorf "error preparing colima privileged dir: " e),
         ⟨s5, w.calls ++ [⟨["sudo", "mkdir", "-p", "/opt/colima/bin"], some e⟩],
          w.requests ++ [vmnetArchive env.GOARCH]⟩)
      | (none, s5) =>
        match env.RunInteractive s5
            ["sudo", "sh", "-c", "cd /opt/colima/bin && tar xfz " ++ f.Name] with
        | (some e, s6) =>
          (some (Errorf "error extracting vmnet archive: " e),
           ⟨s6, w.calls ++ [⟨["sudo", "mkdir", "-p", "/opt/colima/bin"], none⟩,
              ⟨["sudo", "sh", "-c", "cd /opt/colima/bin && tar xfz " ++ f.Name], some e⟩],
            w.requests ++ [vmnetArchive env.GOARCH]⟩)
        | (none, s6) =>
          (none,
           ⟨s6, w.calls ++ [⟨["sudo", "mkdir", "-p", "/opt/colima/bin"], none⟩,
              ⟨["sudo", "sh", "-c", "cd /opt/colima/bin && tar xfz " ++ f.Name], none⟩],
            w.requests ++ [vmnetArchive env.GOARCH]⟩) := by
  unfold vmnetArchive at hread ⊢
  unfold vmnetStaged
  rcases hc : env.CreateTemp w.sys "" "vmnet.tar.gz" with ⟨r, s2⟩
  rw [hc] at htmp hwrite
  simp only at htmp hwrite
  subst htmp
  rcases hw : env.Write s2 f gz with ⟨r3, s3⟩
  rw [hw] at hwrite
  simp only at hwrite
  subst hwrite
  rcases h5 : env.RunInteractive (env.Close s3 f).2 ["sudo", "mkdir", "-p", "/opt/colima/bin"]
    with ⟨r5, s5⟩
  rcases h6 : env.RunInteractive s5
    ["sudo", "sh", "-c", "cd /opt/colima/bin && tar xfz " ++ f.Name] with ⟨r6, s6⟩
  cases r5 <;> cases r6 <;>
    simp [vmnetFile.Install, read, runInteractive, vmnet_archive, hread, hc, hw,
      rootfulFile.Path, dir_vmnet, vmnet_script, h5, h6]

theorem colima_outcome {σ : Type} (env : Env σ) (w : World σ) :
    colimaVmnetFile.Install env w =
      ((env.RunInteractive w.sys ["sudo", "ln", "-sfn",
          if (env.LookPath w.sys env.Args0).1 = "" then env.Args0
          else (env.LookPath w.sys env.Args0).1, "/opt/colima/bin/colima-vmnet"]).1.map
          (Errorf "error creating colima-vmnet binary: "),
       ⟨(env.RunInteractive w.sys ["sudo", "ln", "-sfn",
          if (env.LookPath w.sys env.Args0).1 = "" then env.Args0
          else (env.LookPath w.sys env.Args0).1, "/opt/colima/bin/colima-vmnet"]).2,
        w.calls ++ [⟨["sudo", "ln", "-sfn",
          if (env.LookPath w.sys env.Args0).1 = "" then env.Args0
          else (env.LookPath w.sys env.Args0).1, "/opt/colima/bin/colima-vmnet"],
          (env.RunInteractive w.sys ["sudo", "ln", "-sfn",
          if (env.LookPath w.sys env.Args0).1 = "" then env.Args0
          else (env.LookPath w.sys env.Args0).1, "/opt/colima/bin/colima-vmnet"]).1⟩],
        w.requests⟩) := by
  simp only [colimaVmnetFile.Install, runInteractive, rootfulFile.Path]
  split <;>
    (rename_i h; simp only [Prod.mk.injEq] at h; obtain ⟨h1, h2⟩ := h; subst h2; simp [h1])

theorem stepMessage_identifies (file file1 : rootfulFile) (k k1 : Nat)
    (hk : k < stepCount file) (hk1 : k1 < stepCount file1)
    (h : stepMessage file1 k1 = stepMessage file k) : file1 = file ∧ k1 = k := by
  cases file <;> cases file1 <;> simp only [stepCount] at hk hk1 <;>
    interval_cases k <;> interval_cases k1 <;>
    first
      | exact ⟨rfl, rfl⟩
      | exact absurd h (by decide)

theorem issued_append {σ : Type} (w w1 : World σ) (cs : List Call)
    (h : w1.calls = w.calls ++ cs) : issued w w1 = cs := by
  simp [issued, h]

theorem requested_append {σ : Type} (w w1 : World σ) (ns : List String)
    (h : w1.requests = w.requests ++ ns) : requested w w1 = ns := by
  simp [requested, h]

/-- C5: let `Install` reach its commands (the resource read and the staging of
the archive succeed), let `k` be a step of the artifact, and let the executor,
handed the commands of the artifact one after the other, answer the `k`
commands before step `k` with success and command `k` with the error `e`. Then
`Install` returns the error built by `fmt.Errorf` from the text of step `k` and
`e` (it unwraps to `e`), the executor receives exactly the commands up to and
including command `k` and none after it, and the text names that step and no
other step of any artifact. -/
theorem install_stops_at_failing_step {σ : Type} (env : Env σ) (w : World σ)
    (file : rootfulFile) (k : Nat) (e : GoError) (s0 : σ) (txt target tmp : String)
    (hpre : beforeCommands env file w.sys = some (s0, txt, target, tmp))
    (hk : k < stepCount file)
    (hans : answers env s0 ((installCommands file txt target tmp).take (k + 1)) =
      List.replicate k none ++ [some e]) :
    (Install env file w).1 = some (Errorf (stepMessage file k) e) ∧
    (Errorf (stepMessage file k) e).Unwrap = some e ∧
    (Errorf (stepMessage file k) e).Error = stepMessage file k ++ e.Error ∧
    (issued w (Install env file w).2).map Call.argv =
      (installCommands file txt target tmp).take (k + 1) ∧
    (issued w (Install env file w).2).map Call.result = List.replicate k none ++ [some e] ∧
    (issued w (Install env file w).2).length = k + 1 ∧
    (∀ file1 k1, k1 < stepCount file1 → stepMessage file1 k1 = stepMessage file k →
      file1 = file ∧ k1 = k) := by
  have key : (Install env file w).1 = some (Errorf (stepMessage file k) e) ∧
      (issued w (Install env file w).2).map Call.argv =
        (installCommands file txt target tmp).take (k + 1) ∧
      (issued w (Install env file w).2).map Call.result =
        List.replicate k none ++ [some e] := by
    cases file
    · -- sudoerFile
      simp only [Install]
      simp only [beforeCommands] at hpre
      rcases hread : env.ReadString "network/sudo.txt" with err | t1
      · simp [hread] at hpre
      · simp only [hread, Option.some.injEq, Prod.mk.injEq] at hpre
        obtain ⟨rfl, rfl, -, -⟩ := hpre
        simp only [stepCount] at hk
        interval_cases k
        · simp only [installCommands, answers, List.take, List.replicate, List.nil_append,
            List.cons.injEq, and_true] at hans
          rw [sudoer_mkdir_error env w t1 e hread hans]
          exact ⟨rfl, by rw [issued_append _ _ _ rfl]; rfl, by rw [issued_append _ _ _ rfl]; rfl⟩
        · simp only [installCommands, answers, List.take, List.replicate, List.cons_append,
            List.nil_append, List.cons.injEq, and_true] at hans
          rw [sudoer_write_error env w t1 e hread hans.1 hans.2]
          exact ⟨rfl, by rw [issued_append _ _ _ rfl]; rfl, by rw [issued_append _ _ _ rfl]; rfl⟩
    · -- vmnetFile
      simp only [Install]
      simp only [beforeCommands] at hpre
      rcases hread : env.Read (vmnetArchive env.GOARCH) with err | gz
      · simp [hread] at hpre
      · rcases htmp : (env.CreateTemp w.sys "" "vmnet.tar.gz").1 with err | f
        · simp [hread, htmp] at hpre
        · rcases hwrite : (env.Write (env.CreateTemp w.sys "" "vmnet.tar.gz").2 f gz).1
            with _ | err
          · simp only [hread, htmp, hwrite, Option.some.injEq, Prod.mk.injEq] at hpre
            obtain ⟨rfl, -, -, rfl⟩ := hpre
            rw [vmnet_commands env w gz f hread htmp hwrite]
            simp only [stepCount] at hk
            rcases h5 : env.RunInteractive (vmnetStaged env w.sys f gz)
              ["sudo", "mkdir", "-p", "/opt/colima/bin"] with ⟨r5, s5⟩
            interval_cases k
            · simp only [installCommands, answers, List.take, List.replicate, List.nil_append,
                List.cons.injEq, and_true, h5] at hans
              subst hans
              exact ⟨rfl, by rw [issued_append _ _ _ rfl]; rfl,
                by rw [issued_append _ _ _ rfl]; rfl⟩
            · simp only [installCommands, answers, List.take, List.replicate, List.cons_append,
                List.nil_append, List.cons.injEq, and_true, h5] at hans
              obtain ⟨h5n, h6⟩ := hans
              subst h5n
              simp only []
              rcases h6r : env.RunInteractive s5
                ["sudo", "sh", "-c", "cd /opt/colima/bin && tar xfz " ++ f.Name] with ⟨r6, s6⟩
              rw [h6r] at h6
              simp only at h6
              subst h6
              exact ⟨rfl, by rw [issued_append _ _ _ rfl]; rfl,
                by rw [issued_append _ _ _ rfl]; rfl⟩
          · simp [hread, htmp, hwrite] at hpre
    · -- colimaVmnetFile
      simp only [Install]
      simp only [beforeCommands, Option.some.injEq, Prod.mk.injEq] at hpre
      obtain ⟨rfl, -, rfl, -⟩ := hpre
      simp only [stepCount] at hk
      interval_cases k
      simp only [installCommands, answers, List.take, List.replicate, List.nil_append,
        List.cons.injEq, and_true] at hans
      rw [colima_outcome, hans]
      exact ⟨rfl, by rw [issued_append _ _ _ rfl]; rfl, by rw [issued_append _ _ _ rfl]; rfl⟩
  refine ⟨key.1, rfl, rfl, key.2.1, key.2.2, ?_,
    fun file1 k1 hk1 h => stepMessage_identifies file file1 k k1 hk hk1 h⟩
  have hlen := congrArg List.length key.2.2
  simpa using hlen

/-- Witness of C5: with an executor that refuses `sudo sh`, step 1 of the
sudoers file and step 1 of the archive fail after a successful step 0; with an
executor that refuses everything, step 0 of the link fails. -/
theorem install_stops_at_failing_step_witness :
    (beforeCommands noShellEnv .sudoerFile (World.fresh 0).sys = some (0, "ok", "", "") ∧
      answers noShellEnv 0 ((installCommands .sudoerFile "ok" "" "").take (1 + 1)) =
        List.replicate 1 none ++ [some (.errorString "exit status 1")] ∧
      (Install noShellEnv .sudoerFile (World.fresh 0)).1 =
        some (Errorf "error writing sudoers file: " (.errorString "exit status 1")) ∧
      (issued (World.fresh 0) (Install noShellEnv .sudoerFile (World.fresh 0)).2).length = 2) ∧
    (beforeCommands noShellEnv .vmnetFile (World.fresh 0).sys =
        some (1, "", "", "/tmp/vmnet.tar.gz7") ∧
      (Install noShellEnv .vmnetFile (World.fresh 0)).1 =
        some (Errorf "error extracting vmnet archive: " (.errorString "exit status 1")) ∧
      (issued (World.fresh 0) (Install noShellEnv .vmnetFile (World.fresh 0)).2).length = 2) ∧
    (beforeCommands failEnv .colimaVmnetFile (World.fresh 0).sys = some (0, "", "colima", "") ∧
      (Install failEnv .colimaVmnetFile (World.fresh 0)).1 =
        some (Errorf "error creating colima-vmnet binary: " (.errorString "exit status 1")) ∧
      (issued (World.fresh 0) (Install failEnv .colimaVmnetFile (World.fresh 0)).2).length = 1) :=
  have hs := install_stops_at_failing_step noShellEnv (World.fresh 0) .sudoerFile 1
    (.errorString "exit status 1") 0 "ok" "" "" (by decide) (by decide) (by decide)
  have hv := install_stops_at_failing_step noShellEnv (World.fresh 0) .vmnetFile 1
    (.errorString "exit status 1") 1 "" "" "/tmp/vmnet.tar.gz7" (by decide) (by decide)
    (by decide)
  have hc := install_stops_at_failing_step failEnv (World.fresh 0) .colimaVmnetFile 0
    (.errorString "exit status 1") 0 "" "colima" "" (by decide) (by decide) (by decide)
  ⟨⟨by decide, by decide, hs.1, hs.2.2.2.2.2.1⟩, ⟨by decide, hv.1, hv.2.2.2.2.2.1⟩,
    ⟨by decide, hc.1, hc.2.2.2.2.2.1⟩⟩

theorem vmnet_requests {σ : Type} (env : Env σ) (w : World σ) :
    (vmnetFile.Install env w).2.requests = w.requests ++ [vmnetArchive env.GOARCH] := by
  rcases hread : env.Read (vmnetArchive env.GOARCH) with err | gz
  · rw [vmnet_read_error env w err hread]
  · rcases htmp : (env.CreateTemp w.sys "" "vmnet.tar.gz").1 with err | f
    · rw [vmnet_temp_error env w gz err hread htmp]
    · rcases hwrite : (env.Write (env.CreateTemp w.sys "" "vmnet.tar.gz").2 f gz).1 with _ | err
      · rw [vmnet_commands env w gz f hread htmp hwrite]
        split
        · rfl
        · split <;> rfl
      · rw [vmnet_write_error env w gz f err hread htmp hwrite]

/-- C6: the code detects the host architecture from `runtime.GOARCH`, in which
the x86_64 architecture is written `amd64`; the detected architecture
`vmnetArch` is `x86_64` or `arm64`. Whatever the value of `runtime.GOARCH`,
`vmnetFile.Install` asks the provider for exactly one resource name, which is
`network/vmnet_x86_64.tar.gz` or `network/vmnet_arm64.tar.gz` and no third
name: the x86_64 name when the detected architecture is `x86_64` (that is, when
`runtime.GOARCH` is `amd64`), the arm64 name for every other one. -/
theorem vmnet_install_requests_one_archive {σ : Type} (env : Env σ) (w : World σ) :
    ∃ name, requested w (Install env .vmnetFile w).2 = [name] ∧
      (name = "network/vmnet_x86_64.tar.gz" ∨ name = "network/vmnet_arm64.tar.gz") ∧
      (env.GOARCH = "amd64" → name = "network/vmnet_x86_64.tar.gz") ∧
      (env.GOARCH ≠ "amd64" → name = "network/vmnet_arm64.tar.gz") ∧
      (vmnetArch env.GOARCH = "x86_64" ∨ vmnetArch env.GOARCH = "arm64") ∧
      (vmnetArch env.GOARCH = "x86_64" ↔ env.GOARCH = "amd64") ∧
      (vmnetArch env.GOARCH = "x86_64" → name = "network/vmnet_x86_64.tar.gz") ∧
      (vmnetArch env.GOARCH ≠ "x86_64" → name = "network/vmnet_arm64.tar.gz") := by
  have harch : vmnetArch env.GOARCH = "x86_64" ↔ env.GOARCH = "amd64" := by
    unfold vmnetArch
    by_cases h : env.GOARCH = "amd64"
    · simp [h]
    · simp only [ne_eq, h, not_false_eq_true, if_true, iff_false]
      decide
  refine ⟨vmnetArchive env.GOARCH, requested_append _ _ _ (vmnet_requests env w),
    ?_, ?_, ?_, ?_, harch, ?_, ?_⟩
  · unfold vmnetArchive
    by_cases h : env.GOARCH = "amd64" <;> simp [h]
  · intro h
    simp [vmnetArchive, h]
  · intro h
    simp [vmnetArchive, h]
  · unfold vmnetArch
    by_cases h : env.GOARCH = "amd64" <;> simp [h]
  · intro h
    simp [vmnetArchive, harch.1 h]
  · intro h
    have h1 : env.GOARCH ≠ "amd64" := fun h2 => h (harch.2 h2)
    simp [vmnetArchive, h1]

/-- C7: let `p` be the path that `exec.LookPath` returns for `os.Args[0]`.
`colimaVmnetFile.Install` hands the executor exactly one command,
`sudo ln -sfn <target> /opt/colima/bin/colima-vmnet`, where the target is `p`
when `p` is not empty and `os.Args[0]` when it is. -/
theorem colimaVmnet_install_links_lookup {σ : Type} (env : Env σ) (w : World σ)
    (p : String) (lerr : Option GoError) (hlook : env.LookPath w.sys env.Args0 = (p, lerr)) :
    ∃ target r,
      issued w (Install env .colimaVmnetFile w).2 =
        [⟨["sudo", "ln", "-sfn", target, "/opt/colima/bin/colima-vmnet"], r⟩] ∧
      (p ≠ "" → target = p) ∧ (p = "" → target = env.Args0) := by
  refine ⟨if p = "" then env.Args0 else p, (env.RunInteractive w.sys
    ["sudo", "ln", "-sfn", if p = "" then env.Args0 else p, "/opt/colima/bin/colima-vmnet"]).1,
    ?_, ?_, ?_⟩
  · apply issued_append
    simp only [Install]
    rw [colima_outcome, hlook]
  · intro h
    simp [h]
  · intro h
    simp [h]

/-- Witness of C7: a lookup that finds `/usr/local/bin/colima`. -/
theorem colimaVmnet_install_links_lookup_witness :
    (sampleEnv statMissing (.ok "") (.ok []) "amd64" "/usr/local/bin/colima" answerOk).LookPath
      (World.fresh 0).sys
      (sampleEnv statMissing (.ok "") (.ok []) "amd64" "/usr/local/bin/colima" answerOk).Args0 =
      ("/usr/local/bin/colima", none) ∧
    ∃ target r,
      issued (World.fresh 0)
        (Install (sampleEnv statMissing (.ok "") (.ok []) "amd64" "/usr/local/bin/colima" answerOk)
          .colimaVmnetFile (World.fresh 0)).2 =
        [⟨["sudo", "ln", "-sfn", target, "/opt/colima/bin/colima-vmnet"], r⟩] ∧
      ("/usr/local/bin/colima" ≠ "" → target = "/usr/local/bin/colima") ∧
      ("/usr/local/bin/colima" = "" → target =
        (sampleEnv statMissing (.ok "") (.ok []) "amd64" "/usr/local/bin/colima" answerOk).Args0) :=
  ⟨rfl,
   colimaVmnet_install_links_lookup
     (sampleEnv statMissing (.ok "") (.ok []) "amd64" "/usr/local/bin/colima" answerOk)
     (World.fresh 0) "/usr/local/bin/colima" none rfl⟩

/-- C10: when the provider answers the sudoers resource with an error,
`sudoerFile.Install` returns an error that wraps it, and when the provider
answers the selected archive with an error, `vmnetFile.Install` returns an
error that wraps it; in both cases the executor receives no command and the
system state is untouched. -/
theorem install_provider_error_no_command {σ : Type} (env : Env σ) (w : World σ)
    (err : GoError) :
    (env.ReadString "network/sudo.txt" = .error err →
      (Install env .sudoerFile w).1 =
        some (Errorf "error retrieving embedded sudo file: " err) ∧
      (Errorf "error retrieving embedded sudo file: " err).Unwrap = some err ∧
      issued w (Install env .sudoerFile w).2 = [] ∧
      (Install env .sudoerFile w).2.sys = w.sys) ∧
    (env.Read (vmnetArchive env.GOARCH) = .error err →
      (Install env .vmnetFile w).1 =
        some (Errorf "error retrieving embedded vmnet file: " err) ∧
      (Errorf "error retrieving embedded vmnet file: " err).Unwrap = some err ∧
      issued w (Install env .vmnetFile w).2 = [] ∧
      (Install env .vmnetFile w).2.sys = w.sys) := by
  constructor
  · intro h
    simp only [Install]
    rw [sudoer_read_error env w err h]
    exact ⟨rfl, rfl, issued_append _ _ _ (by simp), rfl⟩
  · intro h
    simp only [Install]
    rw [vmnet_read_error env w err h]
    exact ⟨rfl, rfl, issued_append _ _ _ (by simp), rfl⟩

/-- Witness of C10: a provider that has none of the resources. -/
theorem install_provider_error_no_command_witness :
    ((sampleEnv statMissing (.error notFound) (.error notFound) "amd64" "" answerOk).ReadString
        "network/sudo.txt" = .error notFound ∧
      (Install (sampleEnv statMissing (.error notFound) (.error notFound) "amd64" "" answerOk)
        .sudoerFile (World.fresh 0)).1 =
        some (Errorf "error retrieving embedded sudo file: " notFound) ∧
      issued (World.fresh 0)
        (Install (sampleEnv statMissing (.error notFound) (.error notFound) "amd64" "" answerOk)
          .sudoerFile (World.fresh 0)).2 = []) ∧
    ((sampleEnv statMissing (.error notFound) (.error notFound) "amd64" "" answerOk).Read
        (vmnetArchive
          (sampleEnv statMissing (.error notFound) (.error notFound) "amd64" "" answerOk).GOARCH) =
        .error notFound ∧
      (Install (sampleEnv statMissing (.error notFound) (.error notFound) "amd64" "" answerOk)
        .vmnetFile (World.fresh 0)).1 =
        some (Errorf "error retrieving embedded vmnet file: " notFound) ∧
      issued (World.fresh 0)
        (Install (sampleEnv statMissing (.error notFound) (.error notFound) "amd64" "" answerOk)
          .vmnetFile (World.fresh 0)).2 = []) :=
  have h := install_provider_error_no_command
    (sampleEnv statMissing (.error notFound) (.error notFound) "amd64" "" answerOk)
    (World.fresh 0) notFound
  ⟨⟨rfl, (h.1 rfl).1, (h.1 rfl).2.2.1⟩, ⟨rfl, (h.2 rfl).1, (h.2 rfl).2.2.1⟩⟩

/-! ### The shell on the write command -/

theorem dropLeading_append (p s : List Char) : dropLeading p (p ++ s) = some s := by
  induction p with
  | nil => cases s <;> rfl
  | cons c cs ih => simp [dropLeading, ih]

theorem takeWhile_plain (t rest : List Char) (q : Char)
    (ht : t.all (fun c => !dquoteSpecial c) = true) (hq : dquoteSpecial q = true) :
    (t ++ q :: rest).takeWhile (fun c => !dquoteSpecial c) = t ∧
    (t ++ q :: rest).dropWhile (fun c => !dquoteSpecial c) = q :: rest := by
  induction t with
  | nil => simp [List.takeWhile, List.dropWhile, hq]
  | cons c cs ih =>
    simp only [List.all_cons, Bool.and_eq_true] at ht
    obtain ⟨ih1, ih2⟩ := ih ht.2
    rw [List.cons_append, List.takeWhile_cons, List.dropWhile_cons]
    simp only [ht.1, if_true, ih1, ih2, and_self]

theorem shEchoTo_plain (t : String) (hplain : plainWord t.data = true) :
    shEchoTo ("echo \"" ++ t ++ "\" > /etc/sudoers.d/colima") =
      some ("/etc/sudoers.d/colima", t ++ "\n") := by
  have hall : t.data.all (fun c => !dquoteSpecial c) = true := by
    unfold plainWord at hplain
    simp only [Bool.and_eq_true] at hplain
    exact hplain.1
  have hdata : ("echo \"" ++ t ++ "\" > /etc/sudoers.d/colima").data =
      "echo \"".data ++ (t.data ++ Char.ofNat 34 :: " > /etc/sudoers.d/colima".data) := by
    simp only [String.data_append, List.append_assoc]
  obtain ⟨h1, h2⟩ := takeWhile_plain t.data " > /etc/sudoers.d/colima".data (Char.ofNat 34)
    hall (by decide)
  unfold shEchoTo
  rw [hdata, dropLeading_append]
  simp only [h1, h2]
  have h3 : dropLeading "\" > ".data (Char.ofNat 34 :: " > /etc/sudoers.d/colima".data) =
      some "/etc/sudoers.d/colima".data := by decide
  rw [h3]
  have h4 : "/etc/sudoers.d/colima".data ≠ [] ∧
      "/etc/sudoers.d/colima".data.all pathChar = true := by decide
  simp only [hplain, h4, and_self, if_true]
  rfl

/-- C4 (as amended): when the provider returns the text `t` and the executor
succeeds, `sudoerFile.Install` succeeds and the executor receives two commands:
`sudo mkdir -p /etc/sudoers.d`, then `sudo sh -c S` where the script `S` is `t`
placed unchanged between `echo "` and `" > /etc/sudoers.d/colima`. When `t` has
no double quote, dollar sign, backquote or backslash and no leading dash, the
shell stores `t` followed by one newline in `/etc/sudoers.d/colima`. -/
theorem sudoer_install_write_command {σ : Type} (env : Env σ) (w : World σ) (t : String)
    (hread : env.ReadString "network/sudo.txt" = .ok t)
    (hexec : ∀ s argv, (env.RunInteractive s argv).1 = none) :
    (Install env .sudoerFile w).1 = none ∧
    issued w (Install env .sudoerFile w).2 =
      [⟨["sudo", "mkdir", "-p", "/etc/sudoers.d"], none⟩,
       ⟨["sudo", "sh", "-c", "echo \"" ++ t ++ "\" > /etc/sudoers.d/colima"], none⟩] ∧
    (plainWord t.data = true →
      shEchoTo ("echo \"" ++ t ++ "\" > /etc/sudoers.d/colima") =
        some ("/etc/sudoers.d/colima", t ++ "\n")) := by
  simp only [Install]
  rw [sudoer_success env w t hread (hexec _ _) (hexec _ _)]
  exact ⟨rfl, issued_append _ _ _ rfl, shEchoTo_plain t⟩

/-- Witness of C4 (as amended): the sudoers text of the specification. -/
theorem sudoer_install_write_command_witness :
    (sampleEnv statMissing (.ok "ALL ALL=(ALL) NOPASSWD: ALL") (.ok []) "amd64" ""
      answerOk).ReadString "network/sudo.txt" = .ok "ALL ALL=(ALL) NOPASSWD: ALL" ∧
    (∀ s argv, ((sampleEnv statMissing (.ok "ALL ALL=(ALL) NOPASSWD: ALL") (.ok []) "amd64" ""
      answerOk).RunInteractive s argv).1 = none) ∧
    (Install (sampleEnv statMissing (.ok "ALL ALL=(ALL) NOPASSWD: ALL") (.ok []) "amd64" ""
      answerOk) .sudoerFile (World.fresh 0)).1 = none ∧
    issued (World.fresh 0)
      (Install (sampleEnv statMissing (.ok "ALL ALL=(ALL) NOPASSWD: ALL") (.ok []) "amd64" ""
        answerOk) .sudoerFile (World.fresh 0)).2 =
      [⟨["sudo", "mkdir", "-p", "/etc/sudoers.d"], none⟩,
       ⟨["sudo", "sh", "-c",
          "echo \"" ++ "ALL ALL=(ALL) NOPASSWD: ALL" ++ "\" > /etc/sudoers.d/colima"], none⟩] ∧
    (plainWord "ALL ALL=(ALL) NOPASSWD: ALL".data = true →
      shEchoTo ("echo \"" ++ "ALL ALL=(ALL) NOPASSWD: ALL" ++ "\" > /etc/sudoers.d/colima") =
        some ("/etc/sudoers.d/colima", "ALL ALL=(ALL) NOPASSWD: ALL" ++ "\n")) :=
  ⟨rfl, fun _ _ => rfl,
   sudoer_install_write_command
     (sampleEnv statMissing (.ok "ALL ALL=(ALL) NOPASSWD: ALL") (.ok []) "amd64" "" answerOk)
     (World.fresh 0) "ALL ALL=(ALL) NOPASSWD: ALL" rfl (fun _ _ => rfl)⟩

/-- Counterexample to C4 as stated: with the text `ALL ALL=(ALL) NOPASSWD: ALL`
and an executor that succeeds, the write command is
`echo "ALL ALL=(ALL) NOPASSWD: ALL" > /etc/sudoers.d/colima`, and what the shell
stores is the text followed by a newline, which is not the text. -/
theorem sudoer_install_adds_trailing_newline :
    (Install (sampleEnv statMissing (.ok "ALL ALL=(ALL) NOPASSWD: ALL") (.ok []) "amd64" ""
      answerOk) .sudoerFile (World.fresh 0)).2.calls[1]? =
      some ⟨["sudo", "sh", "-c",
        "echo \"ALL ALL=(ALL) NOPASSWD: ALL\" > /etc/sudoers.d/colima"], none⟩ ∧
    shEchoTo "echo \"ALL ALL=(ALL) NOPASSWD: ALL\" > /etc/sudoers.d/colima" =
      some ("/etc/sudoers.d/colima", "ALL ALL=(ALL) NOPASSWD: ALL\n") ∧
    "ALL ALL=(ALL) NOPASSWD: ALL\n" ≠ "ALL ALL=(ALL) NOPASSWD: ALL" := by
  refine ⟨by decide, by decide, by decide⟩

/-! ### Two calls in a row -/

end Network
